import Mathlib

/-!
Verification of the macro-adapter layer in
`Sources/CPython/include/CPython.h` of the swift-python repository.

The header defines seven `static inline` functions that forward CPython
preprocessor macros across an FFI boundary:
`_get_PyModuleDef_HEAD_INIT`, `_PyExceptionInstance_Check`,
`_PyBool_Check`, `_PyLong_Check`, `_PyFloat_Check`, `_PyUnicode_Check`
and `_PyList_Check`, plus the typedef `_PyCModuleExecFunction`.

The CPython runtime itself is external to the repository.  We model the
relevant slice of it shallowly: a heap of reference-counted objects, each
carrying a pointer to a type object; type objects carry the fast-subclass
flag bits and a method-resolution-order name list that the documented
CPython `Py*_Check` macros consult.  A C pointer dereference that would be
undefined behavior (null or dangling pointer) is modelled as `Option.none`
in the result of the macro.

The wrapper functions from the header are embedded as state-passing
functions (C code may in principle read and write runtime state); their
bodies are translated line by line from the source.  The macros are the
external comparison targets, modelled from the specification and the
documented CPython semantics.
-/

/-- Machine addresses of heap objects. -/
abbrev Addr := Nat

/-- Model of a CPython type object: its name, the fast-subclass flag bits
(`Py_TPFLAGS_LONG_SUBCLASS`, `Py_TPFLAGS_LIST_SUBCLASS`,
`Py_TPFLAGS_UNICODE_SUBCLASS`, `Py_TPFLAGS_BASE_EXC_SUBCLASS`) of
`tp_flags`, and the names on its method resolution order (used by
`PyType_IsSubtype`). -/
structure PyTypeObject where
  tp_name : String
  tp_flag_long_subclass : Bool
  tp_flag_list_subclass : Bool
  tp_flag_unicode_subclass : Bool
  tp_flag_base_exc_subclass : Bool
  tp_mro : List String
deriving DecidableEq

/-- Model of the data at a `PyObject` address: the `PyObject_HEAD` fields,
a reference count and a (possibly null) pointer to the type object. -/
structure PyObjectData where
  ob_refcnt : Nat
  ob_type : Option PyTypeObject
deriving DecidableEq

/-- A possibly-null `PyObject *` handle; `none` is the null pointer. -/
abbrev PyObjectPtr := Option Addr

/-- Model of the CPython runtime state visible to the adapter layer: the
object heap and the pending-exception indicator of the thread state. -/
structure PyRuntimeState where
  heap : List (Addr × PyObjectData)
  pending_exc : Option Addr
deriving DecidableEq

/-- Dereference a possibly-null object pointer in the heap: `none` when
the pointer is null or dangling (in C this dereference would be undefined
behavior). -/
def derefObject (s : PyRuntimeState) : PyObjectPtr → Option PyObjectData
  | none => none
  | some a => s.heap.lookup a

/-- Modelled from the spec: `PyType_IsSubtype(a, b)` of the external
runtime, true when `b` occurs on the method resolution order of `a`. -/
def PyType_IsSubtype (a b : PyTypeObject) : Bool :=
  a.tp_mro.contains b.tp_name

/-- Modelled from the spec: the shape shared by the external fast-subclass
macros, `PyType_FastSubclass(Py_TYPE(op), flagbit)`.  Reads the type of
the object and tests one `tp_flags` bit; `none` when the object pointer or
its type pointer is null (undefined behavior in C). -/
def fastSubclassCheck (flag : PyTypeObject → Bool) (s : PyRuntimeState)
    (x : PyObjectPtr) : Option Bool :=
  match derefObject s x with
  | none => none
  | some o =>
    match o.ob_type with
    | none => none
    | some ty => some (flag ty)

/-- The external type object for `bool`.  Per the documented CPython
runtime, `bool` is a subtype of `int`, so `Py_TPFLAGS_LONG_SUBCLASS` is
set on it and `int` is on its method resolution order. -/
def PyBool_Type : PyTypeObject :=
  { tp_name := "bool"
    tp_flag_long_subclass := true
    tp_flag_list_subclass := false
    tp_flag_unicode_subclass := false
    tp_flag_base_exc_subclass := false
    tp_mro := ["bool", "int", "object"] }

/-- The external type object for `int`. -/
def PyLong_Type : PyTypeObject :=
  { tp_name := "int"
    tp_flag_long_subclass := true
    tp_flag_list_subclass := false
    tp_flag_unicode_subclass := false
    tp_flag_base_exc_subclass := false
    tp_mro := ["int", "object"] }

/-- The external type object for `float`. -/
def PyFloat_Type : PyTypeObject :=
  { tp_name := "float"
    tp_flag_long_subclass := false
    tp_flag_list_subclass := false
    tp_flag_unicode_subclass := false
    tp_flag_base_exc_subclass := false
    tp_mro := ["float", "object"] }

/-- The external type object for `str`. -/
def PyUnicode_Type : PyTypeObject :=
  { tp_name := "str"
    tp_flag_long_subclass := false
    tp_flag_list_subclass := false
    tp_flag_unicode_subclass := true
    tp_flag_base_exc_subclass := false
    tp_mro := ["str", "object"] }

/-- The external type object for `list`. -/
def PyList_Type : PyTypeObject :=
  { tp_name := "list"
    tp_flag_long_subclass := false
    tp_flag_list_subclass := true
    tp_flag_unicode_subclass := false
    tp_flag_base_exc_subclass := false
    tp_mro := ["list", "object"] }

/-- The external type object for `Exception`: a base-exception subclass,
so `Py_TPFLAGS_BASE_EXC_SUBCLASS` is set on it. -/
def PyExc_Exception_Type : PyTypeObject :=
  { tp_name := "Exception"
    tp_flag_long_subclass := false
    tp_flag_list_subclass := false
    tp_flag_unicode_subclass := false
    tp_flag_base_exc_subclass := true
    tp_mro := ["Exception", "BaseException", "object"] }

/-- Modelled from the spec: the external macro
`PyExceptionInstance_Check(x)`, defined in the CPython runtime as
`PyType_FastSubclass(Py_TYPE(x), Py_TPFLAGS_BASE_EXC_SUBCLASS)`. -/
def PyExceptionInstance_Check (s : PyRuntimeState) (x : PyObjectPtr) :
    Option Bool :=
  fastSubclassCheck (·.tp_flag_base_exc_subclass) s x

/-- Modelled from the spec: the external macro `PyBool_Check(x)`, defined
in the CPython runtime as `Py_IS_TYPE(x, &PyBool_Type)`: exact identity
of the type pointer with the `bool` type object. -/
def PyBool_Check (s : PyRuntimeState) (x : PyObjectPtr) : Option Bool :=
  match derefObject s x with
  | none => none
  | some o => some (decide (o.ob_type = some PyBool_Type))

/-- Modelled from the spec: the external macro `PyLong_Check(op)`, defined
in the CPython runtime as
`PyType_FastSubclass(Py_TYPE(op), Py_TPFLAGS_LONG_SUBCLASS)`. -/
def PyLong_Check (s : PyRuntimeState) (x : PyObjectPtr) : Option Bool :=
  fastSubclassCheck (·.tp_flag_long_subclass) s x

/-- Modelled from the spec: the external macro `PyFloat_Check(op)`,
defined in the CPython runtime as `PyObject_TypeCheck(op, &PyFloat_Type)`,
that is exact type identity or `PyType_IsSubtype` of the type of the
object with the `float` type object. -/
def PyFloat_Check (s : PyRuntimeState) (x : PyObjectPtr) : Option Bool :=
  match derefObject s x with
  | none => none
  | some o =>
    match o.ob_type with
    | none => none
    | some ty => some (decide (ty = PyFloat_Type) || PyType_IsSubtype ty PyFloat_Type)

/-- Modelled from the spec: the external macro `PyUnicode_Check(op)`,
defined in the CPython runtime as
`PyType_FastSubclass(Py_TYPE(op), Py_TPFLAGS_UNICODE_SUBCLASS)`. -/
def PyUnicode_Check (s : PyRuntimeState) (x : PyObjectPtr) : Option Bool :=
  fastSubclassCheck (·.tp_flag_unicode_subclass) s x

/-- Modelled from the spec: the external macro `PyList_Check(op)`, defined
in the CPython runtime as
`PyType_FastSubclass(Py_TYPE(op), Py_TPFLAGS_LIST_SUBCLASS)`. -/
def PyList_Check (s : PyRuntimeState) (x : PyObjectPtr) : Option Bool :=
  fastSubclassCheck (·.tp_flag_list_subclass) s x

/-- Model of the `PyModuleDef_Base` struct of the external runtime: the
embedded object header, the one-time initialization function slot
`m_init`, the module index `m_index` and the cached copy slot `m_copy`. -/
structure PyModuleDef_Base where
  ob_base : PyObjectData
  m_init : Option Addr
  m_index : Int
  m_copy : Option Addr
deriving DecidableEq

/-- Modelled from the spec: the external macro `PyObject_HEAD_INIT(type)`,
the initial object-header value with the given type pointer. -/
def PyObject_HEAD_INIT (ty : Option PyTypeObject) : PyObjectData :=
  { ob_refcnt := 1, ob_type := ty }

/-- Modelled from the spec: the external macro `PyModuleDef_HEAD_INIT`,
`{ PyObject_HEAD_INIT(NULL), NULL, 0, NULL }`: the fixed initializer for
`PyModuleDef_Base`. -/
def PyModuleDef_HEAD_INIT : PyModuleDef_Base :=
  { ob_base := PyObject_HEAD_INIT none
    m_init := none
    m_index := 0
    m_copy := none }

/-- The typedef `_PyCModuleExecFunction` from the header: a
module-execution callback `int (*)(PyObject * __nullable module)`. -/
def _PyCModuleExecFunction := PyRuntimeState → PyObjectPtr → Int × PyRuntimeState

/-- `_get_PyModuleDef_HEAD_INIT` from `Sources/CPython/include/CPython.h`:
`PyModuleDef_Base base = PyModuleDef_HEAD_INIT; return base;`.
Embedded in state-passing style: the returned value and the runtime state
after the call. -/
def _get_PyModuleDef_HEAD_INIT (s : PyRuntimeState) :
    PyModuleDef_Base × PyRuntimeState :=
  (PyModuleDef_HEAD_INIT, s)

/-- `_PyExceptionInstance_Check` from the header:
`return PyExceptionInstance_Check(object);`. -/
def _PyExceptionInstance_Check (s : PyRuntimeState) (object : PyObjectPtr) :
    Option Bool × PyRuntimeState :=
  (PyExceptionInstance_Check s object, s)

/-- `_PyBool_Check` from the header: `return PyBool_Check(object);`. -/
def _PyBool_Check (s : PyRuntimeState) (object : PyObjectPtr) :
    Option Bool × PyRuntimeState :=
  (PyBool_Check s object, s)

/-- `_PyLong_Check` from the header: `return PyLong_Check(object);`. -/
def _PyLong_Check (s : PyRuntimeState) (object : PyObjectPtr) :
    Option Bool × PyRuntimeState :=
  (PyLong_Check s object, s)

/-- `_PyFloat_Check` from the header: `return PyFloat_Check(object);`. -/
def _PyFloat_Check (s : PyRuntimeState) (object : PyObjectPtr) :
    Option Bool × PyRuntimeState :=
  (PyFloat_Check s object, s)

/-- `_PyUnicode_Check` from the header: `return PyUnicode_Check(object);`. -/
def _PyUnicode_Check (s : PyRuntimeState) (object : PyObjectPtr) :
    Option Bool × PyRuntimeState :=
  (PyUnicode_Check s object, s)

/-- `_PyList_Check` from the header: `return PyList_Check(object);`. -/
def _PyList_Check (s : PyRuntimeState) (object : PyObjectPtr) :
    Option Bool × PyRuntimeState :=
  (PyList_Check s object, s)

/-- A handle is valid when it dereferences to an object whose type pointer
is non-null; on such a handle none of the macros hits undefined
behavior. -/
def validHandle (s : PyRuntimeState) (h : PyObjectPtr) : Bool :=
  (Option.bind (derefObject s h) (·.ob_type)).isSome

/-- A sample object wrapping the boolean value `True`. -/
def pyTrueObj : PyObjectData := { ob_refcnt := 1, ob_type := some PyBool_Type }

/-- A sample object wrapping a plain integer. -/
def pyIntObj : PyObjectData := { ob_refcnt := 1, ob_type := some PyLong_Type }

/-- A sample object wrapping an exception instance. -/
def pyExcObj : PyObjectData :=
  { ob_refcnt := 1, ob_type := some PyExc_Exception_Type }

/-- A sample runtime state: a boolean at address 0, an integer at
address 1 and an exception instance at address 2, no pending exception. -/
def sampleState : PyRuntimeState :=
  { heap := [(0, pyTrueObj), (1, pyIntObj), (2, pyExcObj)]
    pending_exc := none }

/-- A state with the same heap as `sampleState` but a pending exception
set, to separate result values from the pending-exception state. -/
def sampleStateExc : PyRuntimeState :=
  { heap := [(0, pyTrueObj), (1, pyIntObj), (2, pyExcObj)]
    pending_exc := some 2 }

lemma derefObject_heap_congr (s t : PyRuntimeState) (hh : s.heap = t.heap)
    (h : PyObjectPtr) : derefObject s h = derefObject t h := by
  cases h <;> simp [derefObject, hh]

lemma fastSubclassCheck_heap_congr (flag : PyTypeObject → Bool)
    (s t : PyRuntimeState) (hh : s.heap = t.heap) (h : PyObjectPtr) :
    fastSubclassCheck flag s h = fastSubclassCheck flag t h := by
  unfold fastSubclassCheck
  rw [derefObject_heap_congr s t hh h]

lemma validHandle_spec (s : PyRuntimeState) (h : PyObjectPtr)
    (hv : validHandle s h = true) :
    ∃ o ty, derefObject s h = some o ∧ o.ob_type = some ty := by
  unfold validHandle at hv
  cases hd : derefObject s h with
  | none => rw [hd] at hv; simp at hv
  | some o =>
    cases hto : o.ob_type with
    | none => rw [hd] at hv; simp [hto] at hv
    | some ty => exact ⟨o, ty, rfl, hto⟩

/-- C1: for every runtime state and every handle (including null), each of
the six predicate wrappers returns exactly the value of the corresponding
CPython macro on that handle and adds no logic of its own (the runtime
state after the call is the state before it). -/
theorem C1_wrappers_forward_macros (s : PyRuntimeState) (h : PyObjectPtr) :
    ((_PyExceptionInstance_Check s h).1 = PyExceptionInstance_Check s h ∧
      (_PyExceptionInstance_Check s h).2 = s) ∧
    ((_PyBool_Check s h).1 = PyBool_Check s h ∧ (_PyBool_Check s h).2 = s) ∧
    ((_PyLong_Check s h).1 = PyLong_Check s h ∧ (_PyLong_Check s h).2 = s) ∧
    ((_PyFloat_Check s h).1 = PyFloat_Check s h ∧ (_PyFloat_Check s h).2 = s) ∧
    ((_PyUnicode_Check s h).1 = PyUnicode_Check s h ∧ (_PyUnicode_Check s h).2 = s) ∧
    ((_PyList_Check s h).1 = PyList_Check s h ∧ (_PyList_Check s h).2 = s) :=
  ⟨⟨rfl, rfl⟩, ⟨rfl, rfl⟩, ⟨rfl, rfl⟩, ⟨rfl, rfl⟩, ⟨rfl, rfl⟩, ⟨rfl, rfl⟩⟩

/-- C3: `_get_PyModuleDef_HEAD_INIT` is pure and deterministic: it leaves
the runtime state unchanged, and any two invocations (from any two
states) return `PyModuleDef_Base` values that are field-wise
identical. -/
theorem C3_moduleDefHeadInit_pure_deterministic (s t : PyRuntimeState) :
    (_get_PyModuleDef_HEAD_INIT s).2 = s ∧
    (_get_PyModuleDef_HEAD_INIT s).1.ob_base = (_get_PyModuleDef_HEAD_INIT t).1.ob_base ∧
    (_get_PyModuleDef_HEAD_INIT s).1.m_init = (_get_PyModuleDef_HEAD_INIT t).1.m_init ∧
    (_get_PyModuleDef_HEAD_INIT s).1.m_index = (_get_PyModuleDef_HEAD_INIT t).1.m_index ∧
    (_get_PyModuleDef_HEAD_INIT s).1.m_copy = (_get_PyModuleDef_HEAD_INIT t).1.m_copy :=
  ⟨rfl, rfl, rfl, rfl, rfl⟩

/-- C4: every predicate wrapper is total on its declared domain, which
includes the null handle: on the null handle each wrapper returns exactly
what the underlying external macro returns there (the undefined-behavior
marker of the model), with no null check and no defined result of its
own. -/
theorem C4_wrappers_total_on_null (s : PyRuntimeState) :
    (_PyExceptionInstance_Check s none).1 = PyExceptionInstance_Check s none ∧
    (_PyBool_Check s none).1 = PyBool_Check s none ∧
    (_PyLong_Check s none).1 = PyLong_Check s none ∧
    (_PyFloat_Check s none).1 = PyFloat_Check s none ∧
    (_PyUnicode_Check s none).1 = PyUnicode_Check s none ∧
    (_PyList_Check s none).1 = PyList_Check s none :=
  ⟨rfl, rfl, rfl, rfl, rfl, rfl⟩

/-- C5: no predicate wrapper alters the runtime state: the whole heap,
hence the reference count and the data of every object (in particular of
the object the handle references), is unchanged after the call. -/
theorem C5_wrappers_preserve_refcounts (s : PyRuntimeState) (h : PyObjectPtr) :
    ((_PyExceptionInstance_Check s h).2 = s ∧
      derefObject (_PyExceptionInstance_Check s h).2 h = derefObject s h) ∧
    ((_PyBool_Check s h).2 = s ∧
      derefObject (_PyBool_Check s h).2 h = derefObject s h) ∧
    ((_PyLong_Check s h).2 = s ∧
      derefObject (_PyLong_Check s h).2 h = derefObject s h) ∧
    ((_PyFloat_Check s h).2 = s ∧
      derefObject (_PyFloat_Check s h).2 h = derefObject s h) ∧
    ((_PyUnicode_Check s h).2 = s ∧
      derefObject (_PyUnicode_Check s h).2 h = derefObject s h) ∧
    ((_PyList_Check s h).2 = s ∧
      derefObject (_PyList_Check s h).2 h = derefObject s h) :=
  ⟨⟨rfl, rfl⟩, ⟨rfl, rfl⟩, ⟨rfl, rfl⟩, ⟨rfl, rfl⟩, ⟨rfl, rfl⟩, ⟨rfl, rfl⟩⟩

/-- C7: repeated invocation of the same predicate wrapper on the same
unchanged handle is idempotent: the second call (from the state the first
call left behind) returns the same result and leaves the same state, so
no hidden state is mutated. -/
theorem C7_wrappers_idempotent (s : PyRuntimeState) (h : PyObjectPtr) :
    ((_PyExceptionInstance_Check (_PyExceptionInstance_Check s h).2 h).1 =
        (_PyExceptionInstance_Check s h).1 ∧
      (_PyExceptionInstance_Check (_PyExceptionInstance_Check s h).2 h).2 =
        (_PyExceptionInstance_Check s h).2) ∧
    ((_PyBool_Check (_PyBool_Check s h).2 h).1 = (_PyBool_Check s h).1 ∧
      (_PyBool_Check (_PyBool_Check s h).2 h).2 = (_PyBool_Check s h).2) ∧
    ((_PyLong_Check (_PyLong_Check s h).2 h).1 = (_PyLong_Check s h).1 ∧
      (_PyLong_Check (_PyLong_Check s h).2 h).2 = (_PyLong_Check s h).2) ∧
    ((_PyFloat_Check (_PyFloat_Check s h).2 h).1 = (_PyFloat_Check s h).1 ∧
      (_PyFloat_Check (_PyFloat_Check s h).2 h).2 = (_PyFloat_Check s h).2) ∧
    ((_PyUnicode_Check (_PyUnicode_Check s h).2 h).1 = (_PyUnicode_Check s h).1 ∧
      (_PyUnicode_Check (_PyUnicode_Check s h).2 h).2 = (_PyUnicode_Check s h).2) ∧
    ((_PyList_Check (_PyList_Check s h).2 h).1 = (_PyList_Check s h).1 ∧
      (_PyList_Check (_PyList_Check s h).2 h).2 = (_PyList_Check s h).2) :=
  ⟨⟨rfl, rfl⟩, ⟨rfl, rfl⟩, ⟨rfl, rfl⟩, ⟨rfl, rfl⟩, ⟨rfl, rfl⟩, ⟨rfl, rfl⟩⟩

/-- C10: the `PyModuleDef_Base` value returned by
`_get_PyModuleDef_HEAD_INIT` has all module-state fields zeroed: `m_init`
is null, `m_index` is 0, `m_copy` is null, and the embedded object header
carries a null type pointer, as `PyObject_HEAD_INIT(NULL)` prescribes. -/
theorem C10_moduleDefHeadInit_fields_zeroed (s : PyRuntimeState) :
    (_get_PyModuleDef_HEAD_INIT s).1.m_init = none ∧
    (_get_PyModuleDef_HEAD_INIT s).1.m_index = 0 ∧
    (_get_PyModuleDef_HEAD_INIT s).1.m_copy = none ∧
    (_get_PyModuleDef_HEAD_INIT s).1.ob_base.ob_type = none ∧
    (_get_PyModuleDef_HEAD_INIT s).1.ob_base = PyObject_HEAD_INIT none :=
  ⟨rfl, rfl, rfl, rfl, rfl⟩

lemma PyBool_Check_heap_congr (s t : PyRuntimeState) (hh : s.heap = t.heap)
    (h : PyObjectPtr) : PyBool_Check s h = PyBool_Check t h := by
  unfold PyBool_Check
  rw [derefObject_heap_congr s t hh h]

lemma PyFloat_Check_heap_congr (s t : PyRuntimeState) (hh : s.heap = t.heap)
    (h : PyObjectPtr) : PyFloat_Check s h = PyFloat_Check t h := by
  unfold PyFloat_Check
  rw [derefObject_heap_congr s t hh h]

/-- C2 counterexample: the handle at address 0 of `sampleState` wraps the
boolean `True`, `_PyBool_Check` returns true on it, yet `_PyLong_Check`
does not return false there (booleans satisfy the integer check), so the
claim as stated fails at this input. -/
theorem C2_counterexample :
    derefObject sampleState (some 0) = some pyTrueObj ∧
    pyTrueObj.ob_type = some PyBool_Type ∧
    (_PyBool_Check sampleState (some 0)).1 = some true ∧
    ¬ (_PyLong_Check sampleState (some 0)).1 = some false := by
  decide

/-- C2 (amended): for every handle that wraps a boolean value,
`_PyBool_Check` returns true, `_PyFloat_Check`, `_PyUnicode_Check` and
`_PyList_Check` return false, and `_PyLong_Check` returns true, because
the external runtime treats booleans as a subtype of integers. -/
theorem C2_bool_handle_check_results (s : PyRuntimeState) (h : PyObjectPtr)
    (o : PyObjectData) (hd : derefObject s h = some o)
    (ht : o.ob_type = some PyBool_Type) :
    (_PyBool_Check s h).1 = some true ∧
    (_PyLong_Check s h).1 = some true ∧
    (_PyFloat_Check s h).1 = some false ∧
    (_PyUnicode_Check s h).1 = some false ∧
    (_PyList_Check s h).1 = some false := by
  refine ⟨?_, ?_, ?_, ?_, ?_⟩ <;>
    simp [_PyBool_Check, _PyLong_Check, _PyFloat_Check, _PyUnicode_Check,
      _PyList_Check, PyBool_Check, PyLong_Check, PyFloat_Check,
      PyUnicode_Check, PyList_Check, fastSubclassCheck, hd, ht,
      PyBool_Type, PyFloat_Type, PyType_IsSubtype]

/-- C2 witness: the amended claim evaluated on the boolean object of
`sampleState`. -/
theorem C2_bool_handle_check_results_witness :
    (derefObject sampleState (some 0) = some pyTrueObj ∧
      pyTrueObj.ob_type = some PyBool_Type) ∧
    ((_PyBool_Check sampleState (some 0)).1 = some true ∧
      (_PyLong_Check sampleState (some 0)).1 = some true ∧
      (_PyFloat_Check sampleState (some 0)).1 = some false ∧
      (_PyUnicode_Check sampleState (some 0)).1 = some false ∧
      (_PyList_Check sampleState (some 0)).1 = some false) :=
  ⟨⟨by decide, by decide⟩,
    C2_bool_handle_check_results sampleState (some 0) pyTrueObj
      (by decide) (by decide)⟩

/-- C6: every wrapper either always returns a boolean or a fixed
structure and exposes no error state: each predicate leaves the
pending-exception state untouched, its result depends only on the heap
(not on any pending exception), on a valid handle it returns `some`
boolean, and `_get_PyModuleDef_HEAD_INIT` returns the fixed initializer
structure. -/
theorem C6_wrappers_never_error (s t : PyRuntimeState) (h : PyObjectPtr)
    (hh : s.heap = t.heap) (hv : validHandle s h = true) :
    ((_PyExceptionInstance_Check s h).2.pending_exc = s.pending_exc ∧
      (_PyBool_Check s h).2.pending_exc = s.pending_exc ∧
      (_PyLong_Check s h).2.pending_exc = s.pending_exc ∧
      (_PyFloat_Check s h).2.pending_exc = s.pending_exc ∧
      (_PyUnicode_Check s h).2.pending_exc = s.pending_exc ∧
      (_PyList_Check s h).2.pending_exc = s.pending_exc) ∧
    ((_PyExceptionInstance_Check s h).1 = (_PyExceptionInstance_Check t h).1 ∧
      (_PyBool_Check s h).1 = (_PyBool_Check t h).1 ∧
      (_PyLong_Check s h).1 = (_PyLong_Check t h).1 ∧
      (_PyFloat_Check s h).1 = (_PyFloat_Check t h).1 ∧
      (_PyUnicode_Check s h).1 = (_PyUnicode_Check t h).1 ∧
      (_PyList_Check s h).1 = (_PyList_Check t h).1) ∧
    ((∃ b, (_PyExceptionInstance_Check s h).1 = some b) ∧
      (∃ b, (_PyBool_Check s h).1 = some b) ∧
      (∃ b, (_PyLong_Check s h).1 = some b) ∧
      (∃ b, (_PyFloat_Check s h).1 = some b) ∧
      (∃ b, (_PyUnicode_Check s h).1 = some b) ∧
      (∃ b, (_PyList_Check s h).1 = some b)) ∧
    (_get_PyModuleDef_HEAD_INIT s).1 = PyModuleDef_HEAD_INIT := by
  obtain ⟨o, ty, hd, hto⟩ := validHandle_spec s h hv
  refine ⟨⟨rfl, rfl, rfl, rfl, rfl, rfl⟩,
    ⟨?_, ?_, ?_, ?_, ?_, ?_⟩, ⟨?_, ?_, ?_, ?_, ?_, ?_⟩, rfl⟩
  · exact fastSubclassCheck_heap_congr (·.tp_flag_base_exc_subclass) s t hh h
  · exact PyBool_Check_heap_congr s t hh h
  · exact fastSubclassCheck_heap_congr (·.tp_flag_long_subclass) s t hh h
  · exact PyFloat_Check_heap_congr s t hh h
  · exact fastSubclassCheck_heap_congr (·.tp_flag_unicode_subclass) s t hh h
  · exact fastSubclassCheck_heap_congr (·.tp_flag_list_subclass) s t hh h
  · exact ⟨ty.tp_flag_base_exc_subclass,
      by simp [_PyExceptionInstance_Check, PyExceptionInstance_Check,
        fastSubclassCheck, hd, hto]⟩
  · exact ⟨decide (o.ob_type = some PyBool_Type),
      by simp [_PyBool_Check, PyBool_Check, hd]⟩
  · exact ⟨ty.tp_flag_long_subclass,
      by simp [_PyLong_Check, PyLong_Check, fastSubclassCheck, hd, hto]⟩
  · exact ⟨decide (ty = PyFloat_Type) || PyType_IsSubtype ty PyFloat_Type,
      by simp [_PyFloat_Check, PyFloat_Check, hd, hto]⟩
  · exact ⟨ty.tp_flag_unicode_subclass,
      by simp [_PyUnicode_Check, PyUnicode_Check, fastSubclassCheck, hd, hto]⟩
  · exact ⟨ty.tp_flag_list_subclass,
      by simp [_PyList_Check, PyList_Check, fastSubclassCheck, hd, hto]⟩

/-- C6 witness: the error-freedom theorem evaluated on the integer handle
of `sampleState`, against a second state that differs only in its
pending exception. -/
theorem C6_wrappers_never_error_witness :
    (sampleState.heap = sampleStateExc.heap ∧
      validHandle sampleState (some 1) = true) ∧
    (((_PyExceptionInstance_Check sampleState (some 1)).2.pending_exc =
        sampleState.pending_exc ∧
      (_PyBool_Check sampleState (some 1)).2.pending_exc =
        sampleState.pending_exc ∧
      (_PyLong_Check sampleState (some 1)).2.pending_exc =
        sampleState.pending_exc ∧
      (_PyFloat_Check sampleState (some 1)).2.pending_exc =
        sampleState.pending_exc ∧
      (_PyUnicode_Check sampleState (some 1)).2.pending_exc =
        sampleState.pending_exc ∧
      (_PyList_Check sampleState (some 1)).2.pending_exc =
        sampleState.pending_exc) ∧
    ((_PyExceptionInstance_Check sampleState (some 1)).1 =
        (_PyExceptionInstance_Check sampleStateExc (some 1)).1 ∧
      (_PyBool_Check sampleState (some 1)).1 =
        (_PyBool_Check sampleStateExc (some 1)).1 ∧
      (_PyLong_Check sampleState (some 1)).1 =
        (_PyLong_Check sampleStateExc (some 1)).1 ∧
      (_PyFloat_Check sampleState (some 1)).1 =
        (_PyFloat_Check sampleStateExc (some 1)).1 ∧
      (_PyUnicode_Check sampleState (some 1)).1 =
        (_PyUnicode_Check sampleStateExc (some 1)).1 ∧
      (_PyList_Check sampleState (some 1)).1 =
        (_PyList_Check sampleStateExc (some 1)).1) ∧
    ((∃ b, (_PyExceptionInstance_Check sampleState (some 1)).1 = some b) ∧
      (∃ b, (_PyBool_Check sampleState (some 1)).1 = some b) ∧
      (∃ b, (_PyLong_Check sampleState (some 1)).1 = some b) ∧
      (∃ b, (_PyFloat_Check sampleState (some 1)).1 = some b) ∧
      (∃ b, (_PyUnicode_Check sampleState (some 1)).1 = some b) ∧
      (∃ b, (_PyList_Check sampleState (some 1)).1 = some b)) ∧
    (_get_PyModuleDef_HEAD_INIT sampleState).1 = PyModuleDef_HEAD_INIT) :=
  ⟨⟨rfl, by decide⟩,
    C6_wrappers_never_error sampleState sampleStateExc (some 1) rfl (by decide)⟩

/-- C8: on a handle wrapping an exception instance (an object of type
`Exception`) `_PyExceptionInstance_Check` returns true; on a handle
wrapping a plain integer it returns false. -/
theorem C8_exceptionInstanceCheck_results (s : PyRuntimeState)
    (he hi : PyObjectPtr) (oe oi : PyObjectData)
    (hde : derefObject s he = some oe)
    (hte : oe.ob_type = some PyExc_Exception_Type)
    (hdi : derefObject s hi = some oi)
    (hti : oi.ob_type = some PyLong_Type) :
    (_PyExceptionInstance_Check s he).1 = some true ∧
    (_PyExceptionInstance_Check s hi).1 = some false := by
  constructor <;>
    simp [_PyExceptionInstance_Check, PyExceptionInstance_Check,
      fastSubclassCheck, hde, hte, hdi, hti, PyExc_Exception_Type,
      PyLong_Type]

/-- C8 witness: the exception-check theorem evaluated on the exception
object and the integer object of `sampleState`. -/
theorem C8_exceptionInstanceCheck_results_witness :
    (derefObject sampleState (some 2) = some pyExcObj ∧
      pyExcObj.ob_type = some PyExc_Exception_Type ∧
      derefObject sampleState (some 1) = some pyIntObj ∧
      pyIntObj.ob_type = some PyLong_Type) ∧
    ((_PyExceptionInstance_Check sampleState (some 2)).1 = some true ∧
      (_PyExceptionInstance_Check sampleState (some 1)).1 = some false) :=
  ⟨⟨by decide, by decide, by decide, by decide⟩,
    C8_exceptionInstanceCheck_results sampleState (some 2) (some 1)
      pyExcObj pyIntObj (by decide) (by decide) (by decide) (by decide)⟩

/-- C9: for every non-null handle, if `_PyBool_Check` returns true then
`_PyLong_Check` returns true as well: the boolean type-check implies the
integer type-check, because the `bool` type object carries the
long-subclass flag. -/
theorem C9_boolCheck_implies_longCheck (s : PyRuntimeState) (h : PyObjectPtr)
    (hnn : h ≠ none) (hb : (_PyBool_Check s h).1 = some true) :
    (_PyLong_Check s h).1 = some true := by
  have hb2 : PyBool_Check s h = some true := hb
  unfold PyBool_Check at hb2
  cases hd : derefObject s h with
  | none => rw [hd] at hb2; simp at hb2
  | some o =>
    rw [hd] at hb2
    simp at hb2
    show PyLong_Check s h = some true
    simp [PyLong_Check, fastSubclassCheck, hd, hb2, PyBool_Type]

/-- C9 witness: the implication evaluated on the boolean object of
`sampleState`. -/
theorem C9_boolCheck_implies_longCheck_witness :
    (some 0 ≠ (none : PyObjectPtr) ∧
      (_PyBool_Check sampleState (some 0)).1 = some true) ∧
    (_PyLong_Check sampleState (some 0)).1 = some true :=
  ⟨⟨by decide, by decide⟩,
    C9_boolCheck_implies_longCheck sampleState (some 0) (by decide) (by decide)⟩
